import Mathlib

/-!
Verification development for the Hamon e-commerce Telegram bot.

Shallow embedding of the session/persistence core (`modules/SessionManager.py`),
the order-lookup caching layer (`modules/DataProvider.py`), the configuration
helpers they use (`modules/CoreConfig.py`), the rate-limit gate of
`modules/MessageHandler.py`, and the second-generation HTTP client
(`src/core/client.py`).

Modelling conventions:
* `datetime` instants are natural numbers (seconds); `datetime.now()` becomes an
  explicit `now` argument.  Within one Python call the clock is read several
  times; we model a single instant per operation.
* Python's `datetime.isoformat`/`fromisoformat` are mutually inverse on
  datetimes (the ISO-8601 string is lossless down to the microsecond).  The
  serialized string is therefore represented by the instant it denotes, wrapped
  in `IsoString` to keep serialized and live timestamps distinct types.
* JSON values are the inductive `JVal`; Python `dict`s become association
  lists.  CPython dicts have unique keys, which the `aset`/`adel` helpers
  preserve.
* Fallible remote-store writes are driven by an explicit `ok : Bool`
  (connection healthy or not); a raising call is an `Except.error`, and a
  Python `try/except` around it is a `match` that maps the error branch to the
  handler's behaviour.
* In-place mutation of the session object is modelled by explicit state
  passing: the mutated record is returned and written back on `save`.
-/

/-- The `UserState` enum from `CoreConfig.py` (values assigned by `auto()`, 1-based). -/
inductive UserState where
  | IDLE
  | WAITING_nationalId
  | AUTHENTICATED
  | WAITING_ORDER_NUMBER
  | WAITING_SERIAL
  | WAITING_COMPLAINT_TYPE
  | WAITING_COMPLAINT_TEXT
  | WAITING_REPAIR_DESC
  | RATE_LIMITED
deriving DecidableEq, Repr

/-- Model of `UserState.value` (`auto()` numbers members 1..9 in declaration order). -/
def UserState.value : UserState → Nat
  | .IDLE => 1
  | .WAITING_nationalId => 2
  | .AUTHENTICATED => 3
  | .WAITING_ORDER_NUMBER => 4
  | .WAITING_SERIAL => 5
  | .WAITING_COMPLAINT_TYPE => 6
  | .WAITING_COMPLAINT_TEXT => 7
  | .WAITING_REPAIR_DESC => 8
  | .RATE_LIMITED => 9

/-- Model of the `UserState(value)` constructor lookup; `none` models the `ValueError` raised
on an integer that is not a member value. -/
def UserState.ofValue : Nat → Option UserState
  | 1 => some .IDLE
  | 2 => some .WAITING_nationalId
  | 3 => some .AUTHENTICATED
  | 4 => some .WAITING_ORDER_NUMBER
  | 5 => some .WAITING_SERIAL
  | 6 => some .WAITING_COMPLAINT_TYPE
  | 7 => some .WAITING_COMPLAINT_TEXT
  | 8 => some .WAITING_REPAIR_DESC
  | 9 => some .RATE_LIMITED
  | _ => none

/-- An ISO-8601 timestamp string, represented by the instant it denotes.
`datetime.isoformat` is injective and `datetime.fromisoformat` inverts it
exactly, so the embedding carries the denoted instant instead of the decimal
text. -/
structure IsoString where
  instant : Nat
deriving DecidableEq, Repr

/-- Model of `datetime.isoformat()`. -/
def isoformat (t : Nat) : IsoString := ⟨t⟩

/-- Model of `datetime.fromisoformat(s)`. -/
def fromisoformat (s : IsoString) : Nat := s.instant

/-- JSON values as decoded by `json.loads` / `response.json()`.  Numbers are
integers (the payload fields the code consumes are integral; floats are not
modelled). -/
inductive JVal where
  | null
  | str (s : String)
  | num (n : Int)
  | boolean (b : Bool)
  | obj (fields : List (String × JVal))
  | arr (items : List JVal)

/-- Association-list lookup (Python `dict[k]` / `dict.get(k)`). -/
def aget {α β : Type} [DecidableEq α] : List (α × β) → α → Option β
  | [], _ => none
  | (k', v) :: t, k => if k' = k then some v else aget t k

/-- Remove a key (Python `del d[k]` / `redis.delete`). -/
def adel {α β : Type} [DecidableEq α] : List (α × β) → α → List (α × β)
  | [], _ => []
  | (k', v) :: t, k => if k' = k then adel t k else (k', v) :: adel t k

/-- Insert or overwrite a key (Python `d[k] = v` / `redis.setex`). -/
def aset {α β : Type} [DecidableEq α] (l : List (α × β)) (k : α) (v : β) : List (α × β) :=
  (k, v) :: adel l k


/-- Model of Python `str.strip()`: drop whitespace from both ends.  (Defined
over the character list so that it evaluates definitionally.) -/
def pyStrip (s : String) : String :=
  String.mk (((s.data.dropWhile Char.isWhitespace).reverse.dropWhile Char.isWhitespace).reverse)

/-- Model of `str.isdigit()` over every character (ASCII digits; the code's
`\d{3,12}` regex and `part.isdigit()` checks).  Note Python's
`"".isdigit() == False` is handled at the call sites. -/
def strAllDigits (s : String) : Bool :=
  s.data.all Char.isDigit

/-- Model of `c in s` for a single character. -/
def strContainsChar (s : String) (c : Char) : Bool :=
  s.data.contains c

/-- Splitting a character list on a separator character, Python
`str.split(sep)` semantics (empty pieces preserved, `"" -> [""]`). -/
def splitCharsOn (c : Char) : List Char → List (List Char)
  | [] => [[]]
  | x :: xs =>
    match splitCharsOn c xs with
    | h :: t => if x = c then [] :: h :: t else (x :: h) :: t
    | [] => if x = c then [[], []] else [[x]]

/-- Model of Python `s.split(sep)` for a one-character separator. -/
def strSplitOnChar (s : String) (c : Char) : List String :=
  (splitCharsOn c s.data).map String.mk

/-- Decimal digits to a number; `none` when empty or not all digits. -/
def charsToNat? (l : List Char) : Option Nat :=
  if l ≠ [] ∧ l.all Char.isDigit = true then
    some (l.foldl (fun acc c => acc * 10 + (c.toNat - 48)) 0)
  else none

/-- Model of `int(s)` for an unsigned digit string. -/
def strToNat? (s : String) : Option Nat :=
  charsToNat? s.data

/-- The `SessionData` dataclass (`modules/SessionManager.py`).  `temp_data` maps
string keys to arbitrary JSON-serializable values. -/
structure SessionData where
  chat_id : Int
  state : UserState
  created_at : Nat
  expires_at : Nat
  is_authenticated : Bool
  national_id : Option String
  user_name : Option String
  temp_data : List (String × JVal)
  last_activity : Nat
  request_count : Nat

/-- Default construction `SessionData(chat_id=chat_id)`: state `IDLE`,
`created_at = now`, `expires_at = now + timedelta(minutes=30)`,
unauthenticated, empty `temp_data`, zero request count. -/
def SessionData.mkDefault (chat_id : Int) (now : Nat) : SessionData :=
  { chat_id := chat_id
    state := .IDLE
    created_at := now
    expires_at := now + 30 * 60
    is_authenticated := false
    national_id := none
    user_name := none
    temp_data := []
    last_activity := now
    request_count := 0 }

/-- Model of `SessionData.is_expired`: `datetime.now() > self.expires_at`. -/
def SessionData.is_expired (s : SessionData) (now : Nat) : Bool :=
  decide (s.expires_at < now)

/-- Model of `SessionData.extend`. -/
def SessionData.extend (s : SessionData) (now : Nat) (minutes : Nat := 30) : SessionData :=
  { s with expires_at := now + minutes * 60, last_activity := now }

/-- The dictionary produced by `SessionData.to_dict` (datetimes as ISO strings,
`state` as its enum value). -/
structure SessionDict where
  chat_id : Int
  state : Nat
  created_at : IsoString
  expires_at : IsoString
  is_authenticated : Bool
  national_id : Option String
  user_name : Option String
  temp_data : List (String × JVal)
  last_activity : IsoString
  request_count : Nat

/-- Model of `SessionData.to_dict`: `asdict(self)`, then the three datetime fields are
converted with `.isoformat()` (datetimes are always truthy, so the `if
data[key]` guard always fires) and `state` is replaced by `self.state.value`. -/
def SessionData.to_dict (s : SessionData) : SessionDict :=
  { chat_id := s.chat_id
    state := s.state.value
    created_at := isoformat s.created_at
    expires_at := isoformat s.expires_at
    is_authenticated := s.is_authenticated
    national_id := s.national_id
    user_name := s.user_name
    temp_data := s.temp_data
    last_activity := isoformat s.last_activity
    request_count := s.request_count }

/-- Model of `SessionData.from_dict`: parses the three ISO timestamps (a produced ISO
string is non-empty, so `if data.get(key)` always fires), converts `state`
through the enum constructor — whose `ValueError` on an unknown value is the
`none` case — and rebuilds the dataclass with `cls(**data)`. -/
def SessionData.from_dict (d : SessionDict) : Option SessionData :=
  match UserState.ofValue d.state with
  | none => none
  | some st =>
    some
      { chat_id := d.chat_id
        state := st
        created_at := fromisoformat d.created_at
        expires_at := fromisoformat d.expires_at
        is_authenticated := d.is_authenticated
        national_id := d.national_id
        user_name := d.user_name
        temp_data := d.temp_data
        last_activity := fromisoformat d.last_activity
        request_count := d.request_count }

/-- The `BotMetrics` counters the session manager touches. -/
structure BotMetrics where
  cache_hits : Nat := 0
  cache_misses : Nat := 0
  total_sessions : Nat := 0
  active_sessions : Nat := 0
  authenticated_users : Nat := 0
deriving Repr, DecidableEq

/-- The remote store, split by the two distinct key namespaces of
`RedisSessionManager` (`bot:session:{chat_id}` and `bot:auth:{national_id}`).
A session entry is the JSON-encoded `to_dict` together with the TTL given to
`setex`; an auth entry maps the national id to the chat id. -/
structure RedisStore where
  sessions : List (Int × SessionDict × Nat) := []
  auth : List (String × Int) := []

/-- The mutable state of `RedisSessionManager`: remote store, in-process
`_local_cache`, metrics. -/
structure MgrState where
  redis : RedisStore := {}
  local_cache : List (Int × SessionData) := []
  metrics : BotMetrics := {}

/-- Constant `DEFAULT_TTL` (30 minutes). -/
def DEFAULT_TTL : Nat := 1800

/-- Constant `AUTH_TTL` (60 minutes). -/
def AUTH_TTL : Nat := 3600

/-- Constant `MAX_CACHE_SIZE`. -/
def MAX_CACHE_SIZE : Nat := 500

/-- Model of `redis.setex` on a session key: fails (`Except.error`) when the connection
is down, which `ok` makes explicit. -/
def redisSetexSession (ok : Bool) (r : RedisStore) (chat_id : Int) (d : SessionDict)
    (ttl : Nat) : Except String RedisStore :=
  if ok then .ok { r with sessions := aset r.sessions chat_id (d, ttl) }
  else .error "connection error"

/-- Model of `RedisSessionManager._cleanup_cache`: collect the keys of expired entries
and delete the first 250 of them ("remove half" of `MAX_CACHE_SIZE`). -/
def cleanupCache (lc : List (Int × SessionData)) (now : Nat) : List (Int × SessionData) :=
  let expired := ((lc.filter (fun p => p.2.is_expired now)).map (fun p => p.1)).take 250
  expired.foldl (fun acc k => adel acc k) lc

/-- Model of `RedisSessionManager.save`: stamps `last_activity`, increments
`request_count`, selects the TTL from `is_authenticated`, writes the JSON dict
to the remote store and mirrors the record into the local cache, trimming it
when oversized.  The whole body is inside `try/except`: a failing remote write
is only logged, so the function always returns; the record's in-place
mutations survive either way, but the local-cache insertion (which follows the
remote write in the source) is skipped on failure. -/
def saveSession (ok : Bool) (st : MgrState) (now : Nat) (s : SessionData) :
    SessionData × MgrState :=
  let s := { s with last_activity := now, request_count := s.request_count + 1 }
  let ttl := if s.is_authenticated then AUTH_TTL else DEFAULT_TTL
  match redisSetexSession ok st.redis s.chat_id s.to_dict ttl with
  | .ok r =>
    let lc := aset st.local_cache s.chat_id s
    let lc := if MAX_CACHE_SIZE < lc.length then cleanupCache lc now else lc
    let m := if MAX_CACHE_SIZE < (aset st.local_cache s.chat_id s).length then
        { st.metrics with active_sessions := lc.length } else st.metrics
    (s, { st with redis := r, local_cache := lc, metrics := m })
  | .error _ => (s, st)

/-- The "create new session" tail of `get_or_create`: build the default
record, `save` it, bump the session metrics. -/
def createNewSession (ok : Bool) (st : MgrState) (now : Nat) (chat_id : Int) :
    SessionData × MgrState :=
  let p := saveSession ok st now (SessionData.mkDefault chat_id now)
  let m := { p.2.metrics with
      total_sessions := p.2.metrics.total_sessions + 1
      active_sessions := p.2.local_cache.length }
  (p.1, { p.2 with metrics := m })

/-- The remote-store stage of `get_or_create`: try `redis.get`, decode
(`json.loads` + `from_dict`, any decode error is caught and logged), validate
expiry, otherwise fall through to creating a fresh session. -/
def getOrCreateFromRedis (ok : Bool) (st : MgrState) (now : Nat) (chat_id : Int) :
    SessionData × MgrState :=
  match aget st.redis.sessions chat_id with
  | some (d, _) =>
    match SessionData.from_dict d with
    | some s =>
      if ¬ s.is_expired now then
        (s, { st with local_cache := aset st.local_cache chat_id s })
      else
        createNewSession ok st now chat_id
    | none => createNewSession ok st now chat_id
  | none => createNewSession ok st now chat_id

/-- Model of `RedisSessionManager.get_or_create`: local cache first (hit if present and
not expired, expired entries are evicted), then the remote store, then a fresh
default record. -/
def get_or_create (ok : Bool) (st : MgrState) (now : Nat) (chat_id : Int) :
    SessionData × MgrState :=
  match aget st.local_cache chat_id with
  | some s =>
    if ¬ s.is_expired now then
      (s, { st with metrics := { st.metrics with cache_hits := st.metrics.cache_hits + 1 } })
    else
      let st := { st with
        local_cache := adel st.local_cache chat_id
        metrics := { st.metrics with cache_misses := st.metrics.cache_misses + 1 } }
      getOrCreateFromRedis ok st now chat_id
  | none =>
    let st := { st with
      metrics := { st.metrics with cache_misses := st.metrics.cache_misses + 1 } }
    getOrCreateFromRedis ok st now chat_id

/-- Model of `RedisSessionManager.session`, the `asynccontextmanager`: obtain the
record with `get_or_create`, run the unit of work (which may mutate the record
and the manager state, and may raise — the `Option String` exception), and in
the `finally` block `save` the record.  The exception, if any, propagates
after the `finally` completes. -/
def withSession (ok : Bool) (st : MgrState) (now : Nat) (chat_id : Int)
    (work : SessionData → MgrState → SessionData × MgrState × Option String) :
    SessionData × MgrState × Option String :=
  let p := get_or_create ok st now chat_id
  let w := work p.1 p.2
  let q := saveSession ok w.2.1 now w.1
  (q.1, q.2, w.2.2)

/-- Model of `RedisSessionManager.logout`: inside the session scope, delete the
Authentication Index key for the current `national_id` (when present), clear
the identity fields and `temp_data`, force the state to `IDLE`, and decrement
the authenticated-users metric. -/
def logout (ok : Bool) (st : MgrState) (now : Nat) (chat_id : Int) :
    SessionData × MgrState × Option String :=
  withSession ok st now chat_id (fun s st =>
    let st :=
      match s.national_id with
      | some nid => { st with redis := { st.redis with auth := adel st.redis.auth nid } }
      | none => st
    let s := { s with
      is_authenticated := false
      national_id := none
      user_name := none
      state := .IDLE
      temp_data := [] }
    let st :=
      if 0 < st.metrics.authenticated_users then
        { st with metrics :=
          { st.metrics with authenticated_users := st.metrics.authenticated_users - 1 } }
      else st
    (s, st, none))

/-- Model of `RedisSessionManager.is_rate_limited`: fetch (or create) the session and
compare `request_count` against `config.max_requests_hour`; above the ceiling
the state is set to `RATE_LIMITED`, the record saved, and `True` returned. -/
def is_rate_limited (ok : Bool) (st : MgrState) (now : Nat) (chat_id : Int)
    (max_requests_hour : Nat) : Bool × MgrState :=
  let p := get_or_create ok st now chat_id
  if max_requests_hour < p.1.request_count then
    let s := { p.1 with state := .RATE_LIMITED }
    (true, (saveSession ok p.2 now s).2)
  else
    (false, p.2)

/-- Model of the `temp_data.get(key, default)` read as a number, as
`MessageHandler.process_message` does for `'rate_limit_expires'`.  (The key is
only ever read with an integer default; a non-numeric stored value would raise
in Python, but nothing in the repository ever writes this key.) -/
def tempNum (td : List (String × JVal)) (k : String) (dflt : Int) : Int :=
  match aget td k with
  | some (.num n) => n
  | _ => dflt

/-- The rate-limit gate at the top of `MessageHandler.process_message`: for a
`RATE_LIMITED` session, compute `temp_data.get('rate_limit_expires', 0) -
now()`; while positive the user is blocked (`true`), otherwise the state is
lazily downgraded to `IDLE` and processing continues. -/
def rateLimitGate (s : SessionData) (now : Nat) : Bool × SessionData :=
  if s.state = .RATE_LIMITED then
    let remaining : Int := tempNum s.temp_data "rate_limit_expires" 0 - (now : Int)
    if 0 < remaining then (true, s)
    else (false, { s with state := .IDLE })
  else
    (false, s)

/-- Python truthiness of a JSON value (`bool(v)`). -/
def truthy : JVal → Bool
  | .null => false
  | .str s => s != ""
  | .num n => n != 0
  | .boolean b => b
  | .obj l => !l.isEmpty
  | .arr l => !l.isEmpty

/-- Model of `dict.get(k)` on a JSON object (no default: absent → `None`). -/
def jget (fields : List (String × JVal)) (k : String) : Option JVal :=
  aget fields k

/-- Model of `dict.get(k, default)` on a JSON object.  A key that is present
with value `null` yields `null`, not the default. -/
def jgetD (fields : List (String × JVal)) (k : String) (dflt : JVal) : JVal :=
  (aget fields k).getD dflt

/-- Python's short-circuit `a or b` on JSON values. -/
def jor (a b : JVal) : JVal :=
  if truthy a then a else b

/-- Model of Python `str(v)` for the values the parser stringifies.  Dict/list
reprs are opaque placeholders: no modelled code path consumes them. -/
def pyStr : JVal → String
  | .null => "None"
  | .str s => s
  | .num n => toString n
  | .boolean b => if b then "True" else "False"
  | .obj _ => "<dict>"
  | .arr _ => "<list>"

/-- Model of Python `int(string)`: surrounding whitespace stripped, optional
sign, decimal digits; `none` is the `ValueError`.  (Python additionally
accepts underscores; no modelled input uses them.) -/
def pyStrToInt (s : String) : Option Int :=
  match (pyStrip s).data with
  | '-' :: rest => (charsToNat? rest).map (fun n => -(n : Int))
  | '+' :: rest => (charsToNat? rest).map (fun n => (n : Int))
  | l => (charsToNat? l).map (fun n => (n : Int))

/-- Model of `int(float(string))` as used for `total_cost`: decimal form with
an optional fractional part, truncated toward zero; `none` is the
`ValueError`/`TypeError`.  Scientific notation is not modelled. -/
def pyFloatToInt (s : String) : Option Int :=
  let t := pyStrip s
  match strSplitOnChar t '.' with
  | [a] => pyStrToInt a
  | [a, b] =>
    if strAllDigits b then
      if a = "" ∨ a = "-" ∨ a = "+" then
        if b = "" then none else some 0
      else
        match pyStrToInt a with
        | some n => some n
        | none => none
    else none
  | _ => none

/-- Python `v in [None, "", "نامشخص", 0, {}]` — membership via `==`, under
which `False == 0` also holds (so boolean `false` is in the list), while `[]`
is not equal to `{}`. -/
def isEmptyish : JVal → Bool
  | .null => true
  | .str s => s == "" || s == "نامشخص"
  | .num n => n == 0
  | .boolean b => !b
  | .obj l => l.isEmpty
  | .arr _ => false

/-- Python `response.get("success") == False`: only boolean `False` and the
number `0` compare equal to `False`; an absent key gives `None`, which does
not. -/
def pyEqFalse : Option JVal → Bool
  | some (.boolean b) => !b
  | some (.num n) => n == 0
  | _ => false

/-- Python `v == some_string` for a JSON value (only a string can be equal). -/
def jeqStr (v : JVal) (s : String) : Bool :=
  match v with
  | .str t => t == s
  | _ => false

/-- The `WORKFLOW_STEPS` table of `CoreConfig.py`. -/
def WORKFLOW_STEPS : List (Int × String) :=
  [(0, "ورود مرسوله"), (1, "پیش‌پذیرش"), (2, "پذیرش نهایی"), (3, "در حال تعمیر"),
   (4, "صدور صورتحساب"), (5, "پرداخت و خزانه"), (6, "آماده ارسال"),
   (7, "در حال ارسال"), (8, "تحویل شده"), (9, "منتظر پرداخت"),
   (10, "راکد/معلق"), (50, "تکمیل شده")]

/-- The `STEP_ICONS` table of `CoreConfig.py`. -/
def STEP_ICONS : List (Int × String) :=
  [(0, "📥"), (1, "📝"), (2, "✅"), (3, "🔧"), (4, "📄"), (5, "💰"),
   (6, "📦"), (7, "🚚"), (8, "📬"), (9, "⏳"), (10, "⏸️"), (50, "✔️")]

/-- The `STEP_PROGRESS` table of `CoreConfig.py`. -/
def STEP_PROGRESS : List (Int × Nat) :=
  [(0, 0), (1, 15), (2, 25), (3, 45), (4, 60), (5, 75), (6, 85), (7, 90),
   (8, 95), (9, 80), (10, 20), (50, 100)]

/-- Model of `{v: k for k, v in WORKFLOW_STEPS.items()}.get(s, 0)` (the step
texts are pairwise distinct, so first-match lookup equals the comprehension). -/
def revWorkflowStep (s : String) : Int :=
  match WORKFLOW_STEPS.find? (fun p => p.2 == s) with
  | some p => p.1
  | none => 0

/-- The dictionary returned by `get_step_info`. -/
structure StepInfo where
  text : String
  icon : String
  progress : Nat
  display : String
  bar : String
  step_num : Int

/-- Model of `CoreConfig.get_step_info`.  `int((progress / 100) * 10)` is
computed in floats; integer `progress * 10 / 100` agrees with the float
truncation on every value of `STEP_PROGRESS` and on the default 0. -/
def get_step_info (step : Int) : StepInfo :=
  let progress := (aget STEP_PROGRESS step).getD 0
  let icon := (aget STEP_ICONS step).getD "📍"
  let text := (aget WORKFLOW_STEPS step).getD "نامشخص"
  let filled := progress * 10 / 100
  let bar := String.mk (List.replicate filled '█' ++ List.replicate (10 - filled) '░')
  { text := text, icon := icon, progress := progress,
    display := icon ++ " " ++ text, bar := bar, step_num := step }

/-- Model of `CoreConfig.safe_format_date`.  The input is a JSON value (the
`datetime` branch is unreachable from JSON payloads).  `\d`-style digit tests
are modelled on ASCII digits, and Python's `"".isdigit() == False` is kept. -/
def safe_format_date (date_val : JVal) (dflt : String := "نامشخص") : String :=
  if ¬ truthy date_val ∨ jeqStr date_val "None" = true then dflt
  else
    let s := pyStrip (pyStr date_val)
    let s := if strContainsChar s ' ' then
        (match strSplitOnChar s ' ' with | x :: _ => x | [] => s)
      else s
    if strContainsChar s '/' then
      match strSplitOnChar s '/' with
      | [a, b, c] =>
        if (a != "" && strAllDigits a) &&
           (b != "" && strAllDigits b) &&
           (c != "" && strAllDigits c) then
          let year := (strToNat? a).getD 0
          if 1300 ≤ year ∧ year ≤ 1500 then a ++ "/" ++ b ++ "/" ++ c else s
        else s
      | _ => s
    else s

/-- Model of `Validators.validate_order_number`: non-empty, and after
stripping, a full match of 3–12 digits. -/
def validate_order_number (order_number : String) : Bool × Option String :=
  if order_number = "" then
    (false, some "شماره سفارش نمی‌تواند خالی باشد")
  else
    let cleaned := pyStrip order_number
    if 3 ≤ cleaned.length ∧ cleaned.length ≤ 12 ∧ strAllDigits cleaned = true then
      (true, none)
    else
      (false, some "فرمت شماره سفارش نامعتبر است. لطفاً:\n• فقط عدد شماره پذیرش (مثال: 123456)\nرا وارد کنید")

/-- One entry of the `normalized_devices` list built by
`DataProvider._parse_order_response`. -/
structure NormDevice where
  model : JVal
  serial : JVal
  status : String
  status_code : Int
  passDescription : JVal

/-- Normalization of a single device dict.  `none` models the `TypeError` of
`int()` on a list/dict status, which aborts the whole parse.  The
string-status fallback uses `getattr(self.config, 'DEVICE_STATUS', {})`;
`BotConfig` has no `DEVICE_STATUS` attribute, so the reversed map is empty
(code 0) and the status text lookup always yields its default "نامشخص". -/
def normDevice (d : List (String × JVal)) : Option NormDevice :=
  let status_raw := jgetD d "status" (.num 0)
  let status_code? : Option Int :=
    match status_raw with
    | .str s => some ((pyStrToInt s).getD 0)
    | .null => some 0
    | .num n => some n
    | .boolean b => some (if b then 1 else 0)
    | _ => none
  match status_code? with
  | none => none
  | some status_code =>
    some { model := jgetD d "$$_deviceId" (jgetD d "deviceModel" (jgetD d "model" (.str "نامشخص")))
           serial := jgetD d "serialNumber" (jgetD d "serial" (.str "---"))
           status := "نامشخص"
           status_code := status_code
           passDescription := jgetD d "passDescription" (.str "") }

/-- The device loop: non-dict entries are skipped (`continue`); a failing
entry (`TypeError`) aborts the parse. -/
def normalizeDevices : List JVal → Option (List NormDevice)
  | [] => some []
  | v :: rest =>
    match v with
    | .obj d =>
      match normDevice d with
      | none => none
      | some nd => (normalizeDevices rest).map (fun l => nd :: l)
    | _ => normalizeDevices rest

/-- The `OrderInfo` dataclass of `DataProvider.py`.  Fields that Python leaves
as whatever object the payload held are `JVal`. -/
structure OrderInfo where
  order_number : String
  customer_name : JVal
  nationalId : JVal
  phone_number : JVal
  city : JVal
  steps : Int
  current_step : String
  status_icon : String
  progress : Nat
  progress_bar : String
  device_model : JVal
  serial_number : JVal
  device_status : String
  registration_date : String
  pre_reception_date : String
  repair_description : JVal
  tracking_code : Option String
  total_cost : Option Int
  payment_link : JVal
  factor_payment : JVal
  devices : List NormDevice

/-- The body of `_parse_order_response` once `data` is known to be a dict.
`none` is Python `return None` — either the explicit early returns or an
exception caught by the surrounding `try/except`. -/
def parse_order_data (data : List (String × JVal)) : Option OrderInfo :=
  let order_num_raw := jor (jgetD data "number" .null)
    (jor (jgetD data "processNumber" .null)
    (jor (jgetD data "orderNumber" .null) (jgetD data "id" .null)))
  if ¬ truthy order_num_raw ∨ pyStrip (pyStr order_num_raw) = ""
      ∨ pyStrip (pyStr order_num_raw) = "null" then
    none
  else
    let devices_raw := jor (jgetD data "items" (jgetD data "devices" (.arr []))) (.arr [])
    let normalized? : Option (List NormDevice) :=
      match devices_raw with
      | .arr l => normalizeDevices l
      | .str _ => some []
      | .obj _ => some []
      | _ => none
    match normalized? with
    | none => none
    | some normalized_devices =>
      let first_device : NormDevice := normalized_devices.headD
        { model := .str "نامشخص", serial := .str "---", status := "نامشخص",
          status_code := 0, passDescription := .str "" }
      let steps_raw := jor (jgetD data "steps" .null)
        (jor (jgetD data "status" .null) (jor (jgetD data "currentStep" .null) (.num 0)))
      let steps_int? : Option Int :=
        match steps_raw with
        | .str s => some ((pyStrToInt s).getD (revWorkflowStep (pyStrip s)))
        | .null => some 0
        | .num n => some n
        | .boolean b => some (if b then 1 else 0)
        | _ => none
      match steps_int? with
      | none => none
      | some steps_int =>
        let step_info := get_step_info steps_int
        let reg_date_raw := jgetD data "warehouseRecieptId_createdOn" (jgetD data "createdOn" (.str ""))
        let pre_date_raw := jgetD data "preReceptionId_createdOn" (.str "")
        let reg_date := safe_format_date reg_date_raw "نامشخص"
        let pre_date := safe_format_date pre_date_raw "نامشخص"
        let total_cost_raw := jgetD data "factorId_totalPriceWithTax" (jgetD data "totalCost" .null)
        let total_cost : Option Int :=
          match total_cost_raw with
          | .null => none
          | v =>
            if pyStrip (pyStr v) = "" ∨ pyStrip (pyStr v) = "null" then none
            else pyFloatToInt (pyStr v)
        let order_info : OrderInfo :=
          { order_number := pyStrip (pyStr order_num_raw)
            customer_name := jgetD data "$$_contactId" (jgetD data "customerName" (.str "نامشخص"))
            phone_number := jgetD data "contactId_phone" (jgetD data "phoneNumber" (.str ""))
            nationalId := jor (jgetD data "contactId_nationalCode" .null)
              (jor (jgetD data "contactId_nationalId" .null) (.str ""))
            city := jgetD data "contactId_cityId" (jgetD data "city" (.str "نامشخص"))
            steps := steps_int
            current_step := step_info.text
            status_icon := step_info.icon
            progress := step_info.progress
            progress_bar := step_info.bar
            device_model := first_device.model
            serial_number := first_device.serial
            device_status := first_device.status
            registration_date := reg_date
            pre_reception_date := pre_date
            repair_description := first_device.passDescription
            tracking_code :=
              (let v := jgetD data "preReceptionId_number" (.str "")
               if truthy v then some (pyStr v) else none)
            total_cost := total_cost
            payment_link := jgetD data "factorId_paymentLink" .null
            factor_payment := jgetD data "factorPayment" (.obj [])
            devices := normalized_devices }
        if order_info.order_number = "نامشخص"
            ∧ jeqStr order_info.customer_name "نامشخص" = true
            ∧ jeqStr order_info.device_model "نامشخص" = true then
          none
        else
          some order_info

/-- Model of `DataProvider._parse_order_response`: unwrap the `data` envelope
(`response.get("data", response)`; a non-empty list contributes its first
element; anything else becomes `{}`), require a dict, and parse it. -/
def parse_order_response (response : JVal) : Option OrderInfo :=
  let data :=
    match response with
    | .obj fields => jgetD fields "data" response
    | .arr (x :: _) => x
    | _ => .obj []
  match data with
  | .obj d => parse_order_data d
  | _ => none

/-- The dictionary produced by `OrderInfo.to_display_dict` — the normalized
DTO shape consumed by the message layer and stored in the response cache.
(`nationalId` is not part of the display dict.) -/
structure DisplayOrder where
  order_number : String
  customer_name : JVal
  phone_number : JVal
  city : JVal
  steps : Int
  current_step : String
  status_icon : String
  progress : Nat
  progress_bar : String
  device_model : JVal
  serial_number : JVal
  device_status : String
  registration_date : String
  pre_reception_date : String
  tracking_code : String
  repair_description : JVal
  payment_link : JVal
  total_cost : Option Int
  factor_payment : JVal
  devices : List NormDevice

/-- Model of `OrderInfo.to_display_dict`: dates re-run through
`safe_format_date`, `tracking_code`/`repair_description`/`factor_payment`
defaulted with Python `or`, `devices or []` is the device list itself. -/
def OrderInfo.to_display_dict (oi : OrderInfo) : DisplayOrder :=
  { order_number := oi.order_number
    customer_name := oi.customer_name
    phone_number := oi.phone_number
    city := oi.city
    steps := oi.steps
    current_step := oi.current_step
    status_icon := oi.status_icon
    progress := oi.progress
    progress_bar := oi.progress_bar
    device_model := oi.device_model
    serial_number := oi.serial_number
    device_status := oi.device_status
    registration_date := safe_format_date (.str oi.registration_date)
    pre_reception_date := safe_format_date (.str oi.pre_reception_date)
    tracking_code :=
      (match oi.tracking_code with
       | some s => if s = "" then "---" else s
       | none => "---")
    repair_description := jor oi.repair_description (.str "---")
    payment_link := oi.payment_link
    total_cost := oi.total_cost
    factor_payment := jor oi.factor_payment (.obj [])
    devices := oi.devices }

/-- The failure `"type"` tags that `DataProvider.get_order_by_number` puts in
its error dicts.  (`exception` is the outer catch-all; no modelled sub-call
can raise, so it is never produced.) -/
inductive FailKind where
  | validation_error
  | config_error
  | api_format_error
  | api_error
  | not_found
  | parse_error
  | exception
deriving DecidableEq, Repr

/-- The result dict of `get_order_by_number`: either a normalized DTO with
`success=True` (also what a cache hit returns) or an error dict whose `type`
tag is the `FailKind`. -/
inductive OrderLookup where
  | success (d : DisplayOrder)
  | failure (kind : FailKind) (error : String)

/-- The `has_order_data` screen of `get_order_by_number`: at least one of the
four identifier fields holds a value outside `[None, "", "نامشخص", 0, {}]`
(an absent key reads as `None`, which is in the list). -/
def hasOrderData (fields : List (String × JVal)) : Bool :=
  ["id", "order_number", "number", "processNumber"].any (fun f =>
    match jget fields f with
    | none => false
    | some v => !isEmptyish v)

/-- The response cache (`bot:cache:` namespace): cache key → stored result
dict.  Only successful lookups are written, so the stored value is the
display DTO (its `success=True` marker is implicit). -/
abbrev RespCache := List (String × DisplayOrder)

/-- Model of `DataProvider.get_order_by_number`.  The environment is explicit:
`endpoint` is `config.server_urls.get("number")`, and `backend` is the value
`_make_request` would return for this call (`none` for a failed/absent
response).  Result: the returned dict, the cache afterwards, and whether the
Resilient API Request Executor (`_make_request`) was invoked. -/
def get_order_by_number (cache : RespCache) (endpoint : Option String)
    (backend : Option JVal) (order_number : String) (force_refresh : Bool) :
    OrderLookup × RespCache × Bool :=
  if (validate_order_number order_number).1 = false then
    (.failure .validation_error
      ("فرمت شماره سفارش نامعتبر: " ++ ((validate_order_number order_number).2.getD "")),
     cache, false)
  else
    let cache_key := "order:number:" ++ order_number
    match (if force_refresh then none else aget cache cache_key) with
    | some cached => (.success cached, cache, false)
    | none =>
      match endpoint with
      | none => (.failure .config_error "سرویس پیگیری سفارش در دسترس نیست", cache, false)
      | some _ =>
        match backend with
        | none => (.failure .api_format_error "پاسخ API نامعتبر است", cache, true)
        | some response =>
          match response with
          | .obj fields =>
            if pyEqFalse (jget fields "success") = true then
              let error_message :=
                (let m := jgetD fields "message" (.str "سفارش یافت نشد")
                 if truthy m then pyStr m else "خطای ناشناخته")
              (.failure .api_error error_message, cache, true)
            else if hasOrderData fields = false then
              (.failure .not_found "سفارش در سیستم یافت نشد", cache, true)
            else
              match parse_order_response response with
              | none => (.failure .parse_error "خطا در پردازش اطلاعات سفارش", cache, true)
              | some parsed_order =>
                let result := parsed_order.to_display_dict
                (.success result, aset cache cache_key result, true)
          | _ => (.failure .api_format_error "پاسخ API نامعتبر است", cache, true)

/-- What one attempt of `DataProvider._make_request` encounters: an HTTP
response with a parsed JSON body, a timeout, an `aiohttp.ClientError`, or any
other exception. -/
inductive AttemptOutcome where
  | response (status : Nat) (body : JVal)
  | timeout
  | clientError (msg : String)
  | unexpectedError (msg : String)

/-- Which branch `_make_request` returned through.  The Python return type
collapses everything but `ok` to `None`; the exit kind records the branch
taken (`notFoundAbsence` is the 404 `return None` logged at debug level,
`clientRejected` the other non-retryable statuses logged as errors,
`exhausted` the post-loop failure return). -/
inductive MRExit where
  | ok
  | notFoundAbsence
  | clientRejected (status : Nat)
  | unexpected
  | exhausted
deriving DecidableEq, Repr

/-- Observable outcome of a `_make_request` call: the Python return value,
the branch taken, how many attempts ran, and the `asyncio.sleep` durations. -/
structure MRResult where
  value : Option JVal
  exitKind : MRExit
  attemptsUsed : Nat
  sleeps : List Nat

/-- The retry loop of `_make_request`, by remaining iterations.  A retry
sleeps `2 ** attempt` and only happens when this is not the last iteration
(`attempt < retry_count - 1`), and only for a timeout, an
`aiohttp.ClientError`, or a 5xx status; 200 returns the body, 404 returns
`None` through the not-found branch, any other status returns `None` through
the client-error branch, and an unexpected exception returns `None` at once. -/
def makeRequestGo (env : Nat → AttemptOutcome) (attempt : Nat) : Nat → MRResult
  | 0 => { value := none, exitKind := .exhausted, attemptsUsed := 0, sleeps := [] }
  | fuel + 1 =>
    match env attempt with
    | .response s body =>
      if s = 200 then { value := some body, exitKind := .ok, attemptsUsed := 1, sleeps := [] }
      else if s = 404 then
        { value := none, exitKind := .notFoundAbsence, attemptsUsed := 1, sleeps := [] }
      else if 500 ≤ s then
        if fuel = 0 then { value := none, exitKind := .exhausted, attemptsUsed := 1, sleeps := [] }
        else
          let r := makeRequestGo env (attempt + 1) fuel
          { value := r.value, exitKind := r.exitKind,
            attemptsUsed := r.attemptsUsed + 1, sleeps := 2 ^ attempt :: r.sleeps }
      else { value := none, exitKind := .clientRejected s, attemptsUsed := 1, sleeps := [] }
    | .timeout =>
      if fuel = 0 then { value := none, exitKind := .exhausted, attemptsUsed := 1, sleeps := [] }
      else
        let r := makeRequestGo env (attempt + 1) fuel
        { value := r.value, exitKind := r.exitKind,
          attemptsUsed := r.attemptsUsed + 1, sleeps := 2 ^ attempt :: r.sleeps }
    | .clientError _ =>
      if fuel = 0 then { value := none, exitKind := .exhausted, attemptsUsed := 1, sleeps := [] }
      else
        let r := makeRequestGo env (attempt + 1) fuel
        { value := r.value, exitKind := r.exitKind,
          attemptsUsed := r.attemptsUsed + 1, sleeps := 2 ^ attempt :: r.sleeps }
    | .unexpectedError _ =>
      { value := none, exitKind := .unexpected, attemptsUsed := 1, sleeps := [] }

/-- Model of `DataProvider._make_request` (default `retry_count=2`). -/
def make_request (env : Nat → AttemptOutcome) (retry_count : Nat := 2) : MRResult :=
  makeRequestGo env 0 retry_count

/-- What one attempt of `APIClient.request` (`src/core/client.py`)
encounters.  Unexpected exceptions are not caught there, so they are not part
of this environment. -/
inductive APIAttempt where
  | response (status : Nat) (body : JVal)
  | timeout
  | clientError (msg : String)

/-- The `APIResponse` dataclass of `src/core/client.py`. -/
structure APIResponse where
  status : Nat
  data : Option JVal
  error : Option String
  cached : Bool

/-- Model of the `APIResponse.success` property:
`200 <= self.status < 300 and self.error is None`. -/
def APIResponse.success (r : APIResponse) : Bool :=
  decide (200 ≤ r.status) && decide (r.status < 300) && (r.error == none)

/-- Observable outcome of an `APIClient.request` call. -/
structure APIRequestResult where
  response : APIResponse
  attemptsUsed : Nat
  sleeps : List Nat

/-- The retry loop of `APIClient.request`, by remaining iterations, carrying
the latest `err`.  A status below 400 returns the payload; a 4xx sets
`err = "HTTP {status}"` and `break`s; a 5xx/timeout/`ClientError` sets `err`
and retries after `2 ** attempt` unless this was the last iteration; after
the loop the failure response `APIResponse(500, None, err)` is returned. -/
def apiRequestGo (env : Nat → APIAttempt) (attempt : Nat) :
    Nat → Option String → APIRequestResult
  | 0, err => { response := { status := 500, data := none, error := err, cached := false },
                attemptsUsed := 0, sleeps := [] }
  | fuel + 1, _ =>
    match env attempt with
    | .response s body =>
      if s < 400 then
        { response := { status := s, data := some body, error := none, cached := false },
          attemptsUsed := 1, sleeps := [] }
      else
        let e := some ("HTTP " ++ toString s)
        if s < 500 then
          { response := { status := 500, data := none, error := e, cached := false },
            attemptsUsed := 1, sleeps := [] }
        else
          if fuel = 0 then
            { response := { status := 500, data := none, error := e, cached := false },
              attemptsUsed := 1, sleeps := [] }
          else
            let r := apiRequestGo env (attempt + 1) fuel e
            { response := r.response, attemptsUsed := r.attemptsUsed + 1,
              sleeps := 2 ^ attempt :: r.sleeps }
    | .timeout =>
      if fuel = 0 then
        { response := { status := 500, data := none, error := some "timeout", cached := false },
          attemptsUsed := 1, sleeps := [] }
      else
        let r := apiRequestGo env (attempt + 1) fuel (some "timeout")
        { response := r.response, attemptsUsed := r.attemptsUsed + 1,
          sleeps := 2 ^ attempt :: r.sleeps }
    | .clientError msg =>
      if fuel = 0 then
        { response := { status := 500, data := none, error := some msg, cached := false },
          attemptsUsed := 1, sleeps := [] }
      else
        let r := apiRequestGo env (attempt + 1) fuel (some msg)
        { response := r.response, attemptsUsed := r.attemptsUsed + 1,
          sleeps := 2 ^ attempt :: r.sleeps }

/-- Model of `APIClient.request` (`max_retries` defaults to 3).  `cachedVal`
is the optional short-circuit cache hit (`cache_ttl > 0` with a stored
value); the write-back of a fresh success into that cache is not observed
here.  Initial `err` is `None`. -/
def apiRequest (env : Nat → APIAttempt) (maxRetries : Nat := 3)
    (cachedVal : Option JVal := none) : APIRequestResult :=
  match cachedVal with
  | some payload =>
    { response := { status := 200, data := some payload, error := none, cached := true },
      attemptsUsed := 0, sleeps := [] }
  | none => apiRequestGo env 0 maxRetries none

/-- Classification of one attempt outcome as transient (retryable) for
`_make_request`: timeout, `aiohttp.ClientError`, or a 5xx status. -/
def isTransient : AttemptOutcome → Bool
  | .timeout => true
  | .clientError _ => true
  | .response s _ => decide (500 ≤ s)
  | .unexpectedError _ => false

/-- A concrete expired authenticated session (expired at any `now > 100`). -/
def w1Session : SessionData :=
  { chat_id := 777, state := .AUTHENTICATED, created_at := 0, expires_at := 100,
    is_authenticated := true, national_id := some "0012345678",
    user_name := some "Ali", temp_data := [("k", .num 5)],
    last_activity := 50, request_count := 7 }

/-- A manager state holding `w1Session` (expired) in both tiers. -/
def w1State : MgrState :=
  { redis := { sessions := [(777, (w1Session.to_dict, 3600))], auth := [("0012345678", 777)] }
    local_cache := [(777, w1Session)]
    metrics := {} }

/-- A concrete live authenticated session (not expired at `now = 200`). -/
def w3Session : SessionData :=
  { chat_id := 555, state := .AUTHENTICATED, created_at := 0, expires_at := 100000,
    is_authenticated := true, national_id := some "0012345678",
    user_name := some "Ali", temp_data := [("pending", .str "order")],
    last_activity := 50, request_count := 3 }

/-- A manager state holding `w3Session` in both tiers together with its
Authentication Index entry. -/
def w3State : MgrState :=
  { redis := { sessions := [(555, (w3Session.to_dict, 3600))], auth := [("0012345678", 555)] }
    local_cache := [(555, w3Session)]
    metrics := { authenticated_users := 1 } }

/-- A concrete session one above the default hourly ceiling of 100. -/
def c4Session : SessionData :=
  { chat_id := 555, state := .IDLE, created_at := 0, expires_at := 2000,
    is_authenticated := false, national_id := none, user_name := none,
    temp_data := [], last_activity := 500, request_count := 101 }

/-- A manager state holding `c4Session` in the local cache. -/
def c4State : MgrState :=
  { redis := {}, local_cache := [(555, c4Session)], metrics := {} }

/-- A concrete cached display DTO (an older cache entry). -/
def sampleDTO : DisplayOrder :=
  { order_number := "72113", customer_name := .str "old-name", phone_number := .str "",
    city := .str "نامشخص", steps := 1, current_step := "پیش‌پذیرش", status_icon := "📝",
    progress := 15, progress_bar := "█░░░░░░░░░", device_model := .str "OldPhone",
    serial_number := .str "S0", device_status := "نامشخص", registration_date := "نامشخص",
    pre_reception_date := "نامشخص", tracking_code := "---",
    repair_description := .str "---", payment_link := .null, total_cost := none,
    factor_payment := .obj [], devices := [] }

/-- A concrete well-formed backend payload for order `72113`. -/
def goodResp : JVal :=
  .obj [("number", .str "72113"), ("$$_contactId", .str "علی"),
        ("steps", .num 3),
        ("items", .arr [.obj [("$$_deviceId", .str "Laptop"),
                              ("serialNumber", .str "SN1"), ("status", .num 2)]])]

/-- The display DTO that `goodResp` normalizes to. -/
def goodDTO : DisplayOrder :=
  ((parse_order_response goodResp).map OrderInfo.to_display_dict).getD sampleDTO

/-- A payload whose only identifier is the literal string `"null"` and which
carries no customer name and no device model. -/
def nullIdResp : JVal :=
  .obj [("id", .str "null")]

/-- An environment whose every attempt yields HTTP 404. -/
def env404 : Nat → APIAttempt :=
  fun _ => .response 404 .null

/-! Helper lemmas about the association-list operations and `save`. -/

theorem aget_aset_self {α β : Type} [DecidableEq α] (l : List (α × β)) (k : α) (v : β) :
    aget (aset l k v) k = some v := by
  simp [aset, aget]

theorem aget_adel_self {α β : Type} [DecidableEq α] (l : List (α × β)) (k : α) :
    aget (adel l k) k = none := by
  induction l with
  | nil => rfl
  | cons p t ih =>
    obtain ⟨k', v⟩ := p
    by_cases h : k' = k
    · simpa [adel, aget, h] using ih
    · simpa [adel, aget, h] using ih

theorem aget_adel_ne {α β : Type} [DecidableEq α] (l : List (α × β)) (k k' : α) (h : k ≠ k') :
    aget (adel l k) k' = aget l k' := by
  induction l with
  | nil => rfl
  | cons p t ih =>
    obtain ⟨a, v⟩ := p
    by_cases hp : a = k
    · simp [adel, aget, hp, fun hc : k = k' => h hc, ih]
    · by_cases hp' : a = k'
      · simp [adel, aget, hp, hp', Ne.symm h]
      · simp [adel, aget, hp, hp', ih]

theorem aget_aset_ne {α β : Type} [DecidableEq α] (l : List (α × β)) (k k' : α) (v : β)
    (h : k ≠ k') : aget (aset l k v) k' = aget l k' := by
  simp [aset, aget, h]
  exact aget_adel_ne l k k' h

theorem length_adel_le {α β : Type} [DecidableEq α] (l : List (α × β)) (k : α) :
    (adel l k).length ≤ l.length := by
  induction l with
  | nil => simp [adel]
  | cons p t ih =>
    obtain ⟨a, v⟩ := p
    by_cases h : a = k
    · simp only [adel, h, if_pos rfl, List.length_cons]
      exact Nat.le_succ_of_le ih
    · simp only [adel, if_neg h, List.length_cons]
      exact Nat.succ_le_succ ih

theorem length_aset_le {α β : Type} [DecidableEq α] (l : List (α × β)) (k : α) (v : β) :
    (aset l k v).length ≤ l.length + 1 := by
  simpa [aset] using Nat.succ_le_succ (length_adel_le l k)

theorem saveSession_fst (ok : Bool) (st : MgrState) (now : Nat) (s : SessionData) :
    (saveSession ok st now s).1
      = { s with last_activity := now, request_count := s.request_count + 1 } := by
  cases ok <;> rfl

theorem saveSession_false (st : MgrState) (now : Nat) (s : SessionData) :
    saveSession false st now s
      = ({ s with last_activity := now, request_count := s.request_count + 1 }, st) :=
  rfl

theorem saveSession_true_redis (st : MgrState) (now : Nat) (s : SessionData) :
    (saveSession true st now s).2.redis.sessions
      = aset st.redis.sessions s.chat_id
          (({ s with last_activity := now, request_count := s.request_count + 1 }).to_dict,
           if s.is_authenticated then AUTH_TTL else DEFAULT_TTL) :=
  rfl

theorem saveSession_true_auth (st : MgrState) (now : Nat) (s : SessionData) :
    (saveSession true st now s).2.redis.auth = st.redis.auth :=
  rfl

theorem saveSession_true_lookup (st : MgrState) (now : Nat) (s : SessionData) :
    aget (saveSession true st now s).2.redis.sessions (saveSession true st now s).1.chat_id
      = some ((saveSession true st now s).1.to_dict,
          if (saveSession true st now s).1.is_authenticated then AUTH_TTL else DEFAULT_TTL) := by
  rw [saveSession_true_redis, saveSession_fst]
  exact aget_aset_self _ _ _

theorem saveSession_true_local (st : MgrState) (now : Nat) (s : SessionData)
    (h : st.local_cache.length < MAX_CACHE_SIZE) :
    (saveSession true st now s).2.local_cache
      = aset st.local_cache s.chat_id
          { s with last_activity := now, request_count := s.request_count + 1 } := by
  have hle := length_aset_le st.local_cache s.chat_id
    { s with last_activity := now, request_count := s.request_count + 1 }
  have hnot : ¬ (MAX_CACHE_SIZE
      < (aset st.local_cache s.chat_id
          { s with last_activity := now, request_count := s.request_count + 1 }).length) := by
    omega
  simp [saveSession, redisSetexSession, hnot]

theorem createNewSession_fst (ok : Bool) (st : MgrState) (now : Nat) (chat : Int) :
    (createNewSession ok st now chat).1
      = { SessionData.mkDefault chat now with request_count := 1 } := by
  cases ok <;> rfl

/-- C8: for every constructed session record, deserializing its serialized
form (`SessionData.from_dict` applied to `SessionData.to_dict`) reproduces an
equivalent record — in fact exactly the same record: same state enum, same
`chat_id` and identity fields, same `temp_data`, same `request_count`, and
timestamps preserved exactly (hence equal at least to the second). -/
theorem serialization_roundtrip (s : SessionData) :
    SessionData.from_dict (SessionData.to_dict s) = some s := by
  have h : UserState.ofValue (UserState.value s.state) = some s.state := by
    cases s.state <;> rfl
  simp [SessionData.from_dict, SessionData.to_dict, h, isoformat, fromisoformat]

/-- C9: `save` stamps `last_activity := now` and increments `request_count` by
exactly one before the remote write, on every call (the first conjunct holds
for both a healthy and a failing store, so the in-memory mutation survives a
failed write); when the remote write fails, `save` returns normally — it is a
total function into a non-exceptional type — and leaves the manager state
untouched (second conjunct), the failure being only logged. -/
theorem save_increments_and_never_raises (st : MgrState) (now : Nat) (s : SessionData) :
    (∀ ok : Bool, (saveSession ok st now s).1
        = { s with last_activity := now, request_count := s.request_count + 1 })
    ∧ saveSession false st now s
        = ({ s with last_activity := now, request_count := s.request_count + 1 }, st) :=
  ⟨fun ok => saveSession_fst ok st now s, rfl⟩

theorem default_record_not_expired (chat : Int) (now : Nat) :
    ({ SessionData.mkDefault chat now with request_count := 1 } : SessionData).is_expired now
      = false := by
  simp only [SessionData.is_expired, SessionData.mkDefault, decide_eq_false_iff_not]
  omega

theorem gocr_is_fresh (ok : Bool) (st : MgrState) (now : Nat) (chat : Int) :
    ((getOrCreateFromRedis ok st now chat).1).is_expired now = false := by
  unfold getOrCreateFromRedis
  cases hR : aget st.redis.sessions chat with
  | none => rw [createNewSession_fst]; exact default_record_not_expired chat now
  | some p =>
    obtain ⟨d, ttl⟩ := p
    dsimp only
    cases hF : SessionData.from_dict d with
    | none =>
      dsimp only
      rw [createNewSession_fst]
      exact default_record_not_expired chat now
    | some s =>
      dsimp only
      by_cases hE : s.is_expired now = true
      · rw [if_neg (by simp [hE])]
        rw [createNewSession_fst]
        exact default_record_not_expired chat now
      · rw [if_pos (by simp [hE])]
        simpa using hE

theorem gocr_default (ok : Bool) (st : MgrState) (now : Nat) (chat : Int)
    (hR : ∀ d ttl s, aget st.redis.sessions chat = some (d, ttl) →
        SessionData.from_dict d = some s → s.is_expired now = true) :
    (getOrCreateFromRedis ok st now chat).1
      = { SessionData.mkDefault chat now with request_count := 1 } := by
  unfold getOrCreateFromRedis
  cases hRf : aget st.redis.sessions chat with
  | none => rw [createNewSession_fst]
  | some p =>
    obtain ⟨d, ttl⟩ := p
    dsimp only
    cases hF : SessionData.from_dict d with
    | none =>
      dsimp only
      rw [createNewSession_fst]
    | some s =>
      dsimp only
      have hE := hR d ttl s hRf hF
      rw [if_neg (by simp [hE])]
      rw [createNewSession_fst]

/-- C1: `is_expired()` is true exactly when the current time is strictly after
`expires_at`; `get_or_create` never returns an expired record; and when every
record found for the chat in the local cache or the remote store is expired
(or undecodable), the returned record is the fresh default — state `IDLE`,
unauthenticated, with `request_count = 1` from the initial `save`. -/
theorem expiry_and_get_or_create_fresh :
    (∀ (s : SessionData) (now : Nat), s.is_expired now = true ↔ s.expires_at < now)
    ∧ (∀ (ok : Bool) (st : MgrState) (now : Nat) (chat : Int),
        ((get_or_create ok st now chat).1).is_expired now = false)
    ∧ (∀ (ok : Bool) (st : MgrState) (now : Nat) (chat : Int),
        (∀ s, aget st.local_cache chat = some s → s.is_expired now = true) →
        (∀ d ttl s, aget st.redis.sessions chat = some (d, ttl) →
            SessionData.from_dict d = some s → s.is_expired now = true) →
        (get_or_create ok st now chat).1
          = { SessionData.mkDefault chat now with request_count := 1 }) := by
  refine ⟨fun s now => by simp [SessionData.is_expired], ?_, ?_⟩
  · intro ok st now chat
    unfold get_or_create
    cases hL : aget st.local_cache chat with
    | none => exact gocr_is_fresh ok _ now chat
    | some s =>
      dsimp only
      by_cases hE : s.is_expired now = true
      · rw [if_neg (by simp [hE])]
        exact gocr_is_fresh ok _ now chat
      · rw [if_pos (by simp [hE])]
        simpa using hE
  · intro ok st now chat hL hR
    unfold get_or_create
    cases hLf : aget st.local_cache chat with
    | none => exact gocr_default ok _ now chat hR
    | some s =>
      dsimp only
      have hE := hL s hLf
      rw [if_neg (by simp [hE])]
      exact gocr_default ok _ now chat hR

/-- Witness for C1, applying the fresh-default part at a concrete state whose
local cache and remote store both hold an expired record for chat 777. -/
theorem expiry_and_get_or_create_fresh_witness :
    (get_or_create true w1State 200 777).1
      = { SessionData.mkDefault 777 200 with request_count := 1 } := by
  apply expiry_and_get_or_create_fresh.2.2
  · intro s hs
    simp only [w1State, aget, if_pos rfl] at hs
    cases hs
    rfl
  · intro d ttl s hd hf
    simp only [w1State, aget, if_pos rfl] at hd
    cases hd
    simp only [w1Session, SessionData.to_dict, SessionData.from_dict] at hf
    cases hf
    rfl

/-- C2: the scoped session accessor calls `save` on the obtained record on
every exit of the unit of work.  For any mutation `m` of the record/manager
state and any exception `e` raised by the unit of work, the resulting record
and manager state are identical to those of the non-raising run (first two
conjuncts — the `finally` block runs either way), the exception is re-raised
afterwards (third conjunct), and with a healthy store the mutated record is
persisted: the remote store afterwards maps the record's key to its saved
JSON dict (fourth conjunct). -/
theorem scoped_session_always_saves (ok : Bool) (st : MgrState) (now : Nat) (chat : Int)
    (m : SessionData → MgrState → SessionData × MgrState) (e : Option String) :
    (withSession ok st now chat (fun s stx => ((m s stx).1, (m s stx).2, e))).1
        = (withSession ok st now chat (fun s stx => ((m s stx).1, (m s stx).2, none))).1
    ∧ (withSession ok st now chat (fun s stx => ((m s stx).1, (m s stx).2, e))).2.1
        = (withSession ok st now chat (fun s stx => ((m s stx).1, (m s stx).2, none))).2.1
    ∧ (withSession ok st now chat (fun s stx => ((m s stx).1, (m s stx).2, e))).2.2 = e
    ∧ aget (withSession true st now chat
            (fun s stx => ((m s stx).1, (m s stx).2, e))).2.1.redis.sessions
          (withSession true st now chat
            (fun s stx => ((m s stx).1, (m s stx).2, e))).1.chat_id
        = some ((withSession true st now chat
              (fun s stx => ((m s stx).1, (m s stx).2, e))).1.to_dict,
            if (withSession true st now chat
                (fun s stx => ((m s stx).1, (m s stx).2, e))).1.is_authenticated
            then AUTH_TTL else DEFAULT_TTL) := by
  refine ⟨rfl, rfl, rfl, ?_⟩
  simp only [withSession]
  exact saveSession_true_lookup _ now _

theorem get_or_create_hit (ok : Bool) (st : MgrState) (now : Nat) (chat : Int) (s : SessionData)
    (hL : aget st.local_cache chat = some s) (hE : s.is_expired now = false) :
    get_or_create ok st now chat
      = (s, { st with metrics := { st.metrics with cache_hits := st.metrics.cache_hits + 1 } }) := by
  unfold get_or_create
  rw [hL]
  dsimp only
  rw [if_pos (by simp [hE])]

/-- C3: after `logout` on a chat whose (live) session is authenticated with a
national id, the resulting record is unauthenticated with empty identity
fields, empty `temp_data` and state `IDLE`; the Authentication Index no
longer contains an entry for that national id; and the session record is
retained in the remote store (saved with the unauthenticated TTL) rather than
deleted. -/
theorem logout_clears_identity_and_auth_index (st : MgrState) (now : Nat) (chat : Int)
    (s : SessionData) (nid : String)
    (hL : aget st.local_cache chat = some s)
    (hE : s.is_expired now = false)
    (hCid : s.chat_id = chat)
    (hNid : s.national_id = some nid) :
    ((logout true st now chat).1.is_authenticated = false
      ∧ (logout true st now chat).1.national_id = none
      ∧ (logout true st now chat).1.user_name = none
      ∧ (logout true st now chat).1.temp_data = []
      ∧ (logout true st now chat).1.state = UserState.IDLE)
    ∧ aget (logout true st now chat).2.1.redis.auth nid = none
    ∧ aget (logout true st now chat).2.1.redis.sessions chat
        = some ((logout true st now chat).1.to_dict, DEFAULT_TTL) := by
  have hgoc := get_or_create_hit true st now chat s hL hE
  simp only [logout, withSession, hgoc, hNid]
  refine ⟨⟨?_, ?_, ?_, ?_, ?_⟩, ?_, ?_⟩
  · rw [saveSession_fst]
  · rw [saveSession_fst]
  · rw [saveSession_fst]
  · rw [saveSession_fst]
  · rw [saveSession_fst]
  · split <;> (rw [saveSession_true_auth]; exact aget_adel_self _ _)
  · split <;>
      · rw [saveSession_true_redis, saveSession_fst]
        simp [hCid, aget_aset_self]

/-- Witness for C3 at a concrete authenticated session for chat 555. -/
theorem logout_clears_identity_and_auth_index_witness :
    ((logout true w3State 200 555).1.is_authenticated = false
      ∧ (logout true w3State 200 555).1.national_id = none
      ∧ (logout true w3State 200 555).1.user_name = none
      ∧ (logout true w3State 200 555).1.temp_data = []
      ∧ (logout true w3State 200 555).1.state = UserState.IDLE)
    ∧ aget (logout true w3State 200 555).2.1.redis.auth "0012345678" = none
    ∧ aget (logout true w3State 200 555).2.1.redis.sessions 555
        = some ((logout true w3State 200 555).1.to_dict, DEFAULT_TTL) :=
  logout_clears_identity_and_auth_index w3State 200 555 w3Session "0012345678" rfl rfl rfl rfl

/-- C10: `logout` preserves every session field outside the cleared identity
fields and the save-refreshed activity fields — in particular `chat_id` and
`created_at` are unchanged (and `expires_at` is in fact also untouched, since
`logout` does not extend the session) — and the record continues to exist in
both cache tiers afterwards. -/
theorem logout_frame_preserved (st : MgrState) (now : Nat) (chat : Int)
    (s : SessionData)
    (hL : aget st.local_cache chat = some s)
    (hE : s.is_expired now = false)
    (hCid : s.chat_id = chat)
    (hSize : st.local_cache.length < MAX_CACHE_SIZE) :
    (logout true st now chat).1.chat_id = s.chat_id
    ∧ (logout true st now chat).1.created_at = s.created_at
    ∧ (logout true st now chat).1.expires_at = s.expires_at
    ∧ (logout true st now chat).1.last_activity = now
    ∧ (logout true st now chat).1.request_count = s.request_count + 1
    ∧ aget (logout true st now chat).2.1.local_cache chat = some (logout true st now chat).1
    ∧ aget (logout true st now chat).2.1.redis.sessions chat
        = some ((logout true st now chat).1.to_dict, DEFAULT_TTL) := by
  have hgoc := get_or_create_hit true st now chat s hL hE
  simp only [logout, withSession, hgoc]
  refine ⟨?_, ?_, ?_, ?_, ?_, ?_, ?_⟩
  · rw [saveSession_fst]
  · rw [saveSession_fst]
  · rw [saveSession_fst]
  · rw [saveSession_fst]
  · rw [saveSession_fst]
  · cases hN : s.national_id <;> simp only [hN] <;> split <;>
      · rw [saveSession_true_local, saveSession_fst]
        · simp [hCid, aget_aset_self]
        · exact hSize
  · cases hN : s.national_id <;> simp only [hN] <;> split <;>
      · rw [saveSession_true_redis, saveSession_fst]
        simp [hCid, aget_aset_self]

/-- Witness for C10 at the same concrete authenticated session. -/
theorem logout_frame_preserved_witness :
    (logout true w3State 200 555).1.chat_id = w3Session.chat_id
    ∧ (logout true w3State 200 555).1.created_at = w3Session.created_at
    ∧ (logout true w3State 200 555).1.expires_at = w3Session.expires_at
    ∧ (logout true w3State 200 555).1.last_activity = 200
    ∧ (logout true w3State 200 555).1.request_count = w3Session.request_count + 1
    ∧ aget (logout true w3State 200 555).2.1.local_cache 555 = some (logout true w3State 200 555).1
    ∧ aget (logout true w3State 200 555).2.1.redis.sessions 555
        = some ((logout true w3State 200 555).1.to_dict, DEFAULT_TTL) :=
  logout_frame_preserved w3State 200 555 w3Session rfl rfl rfl (by decide)

/-- C4 (code bug evaluation): for the concrete session with `request_count`
101, one above the ceiling 100, `is_rate_limited` returns true and persists
the record with state `RATE_LIMITED` — but no `'rate_limit_expires'`
timestamp is ever recorded in `temp_data`, so the message handler's lazy
check reads the default 0 and downgrades the state back to `IDLE` on the very
next access (at the same instant), rather than after a recorded expiry
elapses. -/
theorem rate_limit_no_expiry_recorded :
    (is_rate_limited true c4State 1000 555 100).1 = true
    ∧ aget (is_rate_limited true c4State 1000 555 100).2.local_cache 555
        = some { c4Session with
                 state := UserState.RATE_LIMITED
                 last_activity := 1000
                 request_count := 102 }
    ∧ aget ({ c4Session with
              state := UserState.RATE_LIMITED
              last_activity := 1000
              request_count := 102 } : SessionData).temp_data "rate_limit_expires" = none
    ∧ rateLimitGate { c4Session with
          state := UserState.RATE_LIMITED
          last_activity := 1000
          request_count := 102 } 1000
        = (false, { c4Session with
            state := UserState.IDLE
            last_activity := 1000
            request_count := 102 }) :=
  ⟨rfl, rfl, rfl, rfl⟩


/-- Counterexample to C5 as stated: a force-refresh lookup whose backend
fetch fails (`_make_request` returned `None`) does invoke the executor, but
does NOT overwrite the cache entry — the stale DTO stays in the Response
Cache, contradicting "the cache entry for that key is overwritten with the
newly fetched, normalized result" for every force-refresh lookup. -/
theorem force_refresh_failed_fetch_keeps_stale_cache :
    get_order_by_number [("order:number:72113", sampleDTO)] (some "u") none "72113" true
      = (.failure .api_format_error "پاسخ API نامعتبر است",
         [("order:number:72113", sampleDTO)], true)
    ∧ aget [("order:number:72113", sampleDTO)] "order:number:72113" = some sampleDTO :=
  ⟨rfl, rfl⟩

/-- C5 (amended): with a well-formed order number, (i) a non-forced lookup
whose key is in the Response Cache returns the cached DTO and never invokes
the executor; (ii) a force-refresh lookup with a configured endpoint always
invokes the executor regardless of cache state; and (iii) whenever a
force-refresh lookup succeeds, the cache entry for the key is overwritten
with the newly fetched, normalized result (when the refresh fails, the old
entry is left in place — see the counterexample). -/
theorem cache_hit_skips_executor_and_force_refresh_overwrites :
    (∀ (cache : RespCache) (n : String) (endpoint : Option String) (backend : Option JVal)
        (d : DisplayOrder),
      (validate_order_number n).1 = true →
      aget cache ("order:number:" ++ n) = some d →
      get_order_by_number cache endpoint backend n false = (.success d, cache, false))
    ∧ (∀ (cache : RespCache) (n e : String) (backend : Option JVal),
      (validate_order_number n).1 = true →
      (get_order_by_number cache (some e) backend n true).2.2 = true)
    ∧ (∀ (cache : RespCache) (n e : String) (backend : Option JVal) (d : DisplayOrder)
        (c2 : RespCache) (r : Bool),
      (validate_order_number n).1 = true →
      get_order_by_number cache (some e) backend n true = (.success d, c2, r) →
      c2 = aset cache ("order:number:" ++ n) d ∧ r = true) := by
  refine ⟨?_, ?_, ?_⟩
  · intro cache n endpoint backend d hv hc
    unfold get_order_by_number
    rw [if_neg (by simp [hv])]
    dsimp only
    rw [if_neg (by simp), hc]
  · intro cache n e backend hv
    unfold get_order_by_number
    rw [if_neg (by simp [hv])]
    dsimp only
    rw [if_pos rfl]
    dsimp only
    cases backend with
    | none => rfl
    | some resp =>
      cases resp
      case obj fields =>
        dsimp only
        split
        · rfl
        · split
          · rfl
          · split <;> rfl
      all_goals rfl
  · intro cache n e backend d c2 r hv h
    unfold get_order_by_number at h
    rw [if_neg (by simp [hv])] at h
    dsimp only at h
    rw [if_pos rfl] at h
    dsimp only at h
    cases backend with
    | none => simp at h
    | some resp =>
      cases resp
      case obj fields =>
        dsimp only at h
        split at h
        · simp at h
        · split at h
          · simp at h
          · split at h
            · simp at h
            · simp only [Prod.mk.injEq, OrderLookup.success.injEq] at h
              obtain ⟨hd, hc, hr⟩ := h
              subst hd
              subst hc
              subst hr
              exact ⟨rfl, rfl⟩
      all_goals simp at h

/-- Witness for C5: a cache hit for order 72113 returns the cached DTO with
no executor call, and a successful force refresh overwrites that entry with
the freshly parsed DTO of `goodResp`. -/
theorem cache_hit_skips_executor_and_force_refresh_overwrites_witness :
    ((validate_order_number "72113").1 = true
      ∧ get_order_by_number [("order:number:72113", sampleDTO)] (some "u") none "72113" false
          = (.success sampleDTO, [("order:number:72113", sampleDTO)], false))
    ∧ (get_order_by_number [("order:number:72113", sampleDTO)] (some "u") (some goodResp)
        "72113" true).2.2 = true
    ∧ (aset [("order:number:72113", sampleDTO)] "order:number:72113" goodDTO
        = aset [("order:number:72113", sampleDTO)] "order:number:72113" goodDTO
      ∧ (true : Bool) = true) :=
  ⟨⟨rfl,
    cache_hit_skips_executor_and_force_refresh_overwrites.1
      [("order:number:72113", sampleDTO)] "72113" (some "u") none sampleDTO rfl rfl⟩,
   cache_hit_skips_executor_and_force_refresh_overwrites.2.1
      [("order:number:72113", sampleDTO)] "72113" "u" (some goodResp) rfl,
   cache_hit_skips_executor_and_force_refresh_overwrites.2.2
      [("order:number:72113", sampleDTO)] "72113" "u" (some goodResp) goodDTO
      (aset [("order:number:72113", sampleDTO)] "order:number:72113" goodDTO) true rfl rfl⟩

/-- Counterexample to C6 as stated: the payload `{"id": "null"}` is missing a
valid order number (the parser itself rejects the literal string `"null"`),
a customer name and a device model — yet the lookup surfaces it as a PARSE
ERROR, not as the distinct not-found outcome: the string `"null"` passes the
`has_order_data` screen (it is outside `[None, "", "نامشخص", 0, {}]`) and
then fails in `_parse_order_response`.  (No DTO is produced and nothing is
cached, as the claim says.) -/
theorem null_string_id_yields_parse_error_not_not_found :
    get_order_by_number [] (some "u") (some nullIdResp) "123456" false
      = (.failure .parse_error "خطا در پردازش اطلاعات سفارش", [], true)
    ∧ parse_order_response nullIdResp = none :=
  ⟨rfl, rfl⟩

/-- C6 (amended): a payload whose order-identifier fields (`id`,
`order_number`, `number`, `processNumber`, `orderNumber`) are all absent,
`null`, empty or `0` — hence missing a valid order number, and in particular
missing customer name and device model identification — is treated as
not-found: the lookup returns the distinct not-found error dict, nothing is
written to the Response Cache, and the parser yields no DTO.  (A payload
whose only identifier is the literal string `"null"` instead surfaces as a
parse error — see the counterexample.) -/
theorem malformed_payload_treated_as_not_found (cache : RespCache) (n e : String)
    (fields : List (String × JVal))
    (hv : (validate_order_number n).1 = true)
    (hCache : aget cache ("order:number:" ++ n) = none)
    (hData : jget fields "data" = none)
    (hSuccess : pyEqFalse (jget fields "success") = false)
    (hIds : ∀ f, f ∈ (["id", "order_number", "number", "processNumber", "orderNumber"] : List String) →
      jget fields f = none ∨ jget fields f = some .null ∨ jget fields f = some (.str "")
        ∨ jget fields f = some (.num 0)) :
    get_order_by_number cache (some e) (some (.obj fields)) n false
      = (.failure .not_found "سفارش در سیستم یافت نشد", cache, true)
    ∧ parse_order_response (.obj fields) = none := by
  have key : ∀ (o : Option JVal),
      (o = none ∨ o = some .null ∨ o = some (.str "") ∨ o = some (.num 0)) →
      (match o with | none => false | some v => !isEmptyish v) = false := by
    rintro o (rfl | rfl | rfl | rfl) <;> rfl
  have keyT : ∀ (f : String),
      (jget fields f = none ∨ jget fields f = some .null ∨ jget fields f = some (.str "")
        ∨ jget fields f = some (.num 0)) →
      truthy (jgetD fields f .null) = false := by
    intro f h
    simp only [jget] at h
    rcases h with h | h | h | h <;> simp [jgetD, h, truthy]
  have jf : ∀ a b : JVal, truthy a = false → jor a b = b := by
    intro a b h
    simp [jor, h]
  have hno : hasOrderData fields = false := by
    simp only [hasOrderData, List.any_cons, List.any_nil, Bool.or_false, Bool.or_eq_false_iff]
    exact ⟨key _ (hIds "id" (by simp)), key _ (hIds "order_number" (by simp)),
      key _ (hIds "number" (by simp)), key _ (hIds "processNumber" (by simp))⟩
  have hparse : parse_order_response (.obj fields) = none := by
    have hchain : jor (jgetD fields "number" .null)
        (jor (jgetD fields "processNumber" .null)
          (jor (jgetD fields "orderNumber" .null) (jgetD fields "id" .null)))
        = jgetD fields "id" .null := by
      rw [jf _ _ (keyT "number" (hIds "number" (by simp))),
          jf _ _ (keyT "processNumber" (hIds "processNumber" (by simp))),
          jf _ _ (keyT "orderNumber" (hIds "orderNumber" (by simp)))]
    have hid := keyT "id" (hIds "id" (by simp))
    unfold parse_order_response
    dsimp only
    rw [show jgetD fields "data" (.obj fields) = JVal.obj fields by
      simp only [jgetD, jget] at hData ⊢
      rw [hData]
      rfl]
    dsimp only
    unfold parse_order_data
    rw [hchain]
    rw [if_pos (Or.inl (by simp [hid]))]
  refine ⟨?_, hparse⟩
  unfold get_order_by_number
  rw [if_neg (by simp [hv])]
  dsimp only
  rw [if_neg (by simp), hCache]
  dsimp only
  rw [if_neg (by simp [hSuccess]), if_pos (by rw [hno])]

/-- Witness for C6 at the empty payload `{}` (every identifier field absent). -/
theorem malformed_payload_treated_as_not_found_witness :
    get_order_by_number [] (some "u") (some (.obj [])) "123456" false
      = (.failure .not_found "سفارش در سیستم یافت نشد", [], true)
    ∧ parse_order_response (.obj []) = none :=
  malformed_payload_treated_as_not_found [] "123456" "u" [] rfl rfl rfl rfl
    (fun _ _ => Or.inl rfl)

theorem makeRequestGo_attempts_le (env : Nat → AttemptOutcome) (a fuel : Nat) :
    (makeRequestGo env a fuel).attemptsUsed ≤ fuel := by
  induction fuel generalizing a with
  | zero => simp [makeRequestGo]
  | succ fuel ih =>
    unfold makeRequestGo
    cases env a with
    | response s b =>
      dsimp only
      split_ifs with h200 h404 h5xx hf
      · simp
      · simp
      · simp
      · simpa using Nat.succ_le_succ (ih (a + 1))
      · simp
    | timeout =>
      dsimp only
      split_ifs with hf
      · simp
      · simpa using Nat.succ_le_succ (ih (a + 1))
    | clientError msg =>
      dsimp only
      split_ifs with hf
      · simp
      · simpa using Nat.succ_le_succ (ih (a + 1))
    | unexpectedError msg => simp

theorem makeRequestGo_sleep_at (env : Nat → AttemptOutcome) (a fuel i : Nat)
    (h : i < (makeRequestGo env a fuel).sleeps.length) :
    (makeRequestGo env a fuel).sleeps.getD i 0 = 2 ^ (a + i) := by
  induction fuel generalizing a i with
  | zero => exact absurd h (by simp [makeRequestGo])
  | succ fuel ih =>
    unfold makeRequestGo at h ⊢
    cases henv : env a with
    | response s b =>
      rw [henv] at h
      dsimp only at h ⊢
      split_ifs at h ⊢ with h200 h404 h5xx hf
      · exact absurd h (by simp)
      · exact absurd h (by simp)
      · exact absurd h (by simp)
      · cases i with
        | zero => simp
        | succ i =>
          simp only [List.length_cons, Nat.succ_lt_succ_iff] at h
          simp only [List.getD_cons_succ]
          rw [ih (a + 1) i h]
          exact congrArg (2 ^ ·) (by omega)
      · exact absurd h (by simp)
    | timeout =>
      rw [henv] at h
      dsimp only at h ⊢
      split_ifs at h ⊢ with hf
      · exact absurd h (by simp)
      · cases i with
        | zero => simp
        | succ i =>
          simp only [List.length_cons, Nat.succ_lt_succ_iff] at h
          simp only [List.getD_cons_succ]
          rw [ih (a + 1) i h]
          exact congrArg (2 ^ ·) (by omega)
    | clientError msg =>
      rw [henv] at h
      dsimp only at h ⊢
      split_ifs at h ⊢ with hf
      · exact absurd h (by simp)
      · cases i with
        | zero => simp
        | succ i =>
          simp only [List.length_cons, Nat.succ_lt_succ_iff] at h
          simp only [List.getD_cons_succ]
          rw [ih (a + 1) i h]
          exact congrArg (2 ^ ·) (by omega)
    | unexpectedError msg =>
      rw [henv] at h
      exact absurd h (by simp)

theorem makeRequestGo_retries_transient (env : Nat → AttemptOutcome) (a fuel i : Nat)
    (h : i + 1 < (makeRequestGo env a fuel).attemptsUsed) :
    isTransient (env (a + i)) = true := by
  induction fuel generalizing a i with
  | zero => exact absurd h (by simp [makeRequestGo])
  | succ fuel ih =>
    unfold makeRequestGo at h
    cases henv : env a with
    | response s b =>
      rw [henv] at h
      dsimp only at h
      split_ifs at h with h200 h404 h5xx hf
      · exact absurd h (by simp)
      · exact absurd h (by simp)
      · exact absurd h (by simp)
      · cases i with
        | zero =>
          simpa [isTransient, henv] using h5xx
        | succ i =>
          simp only [Nat.succ_lt_succ_iff] at h
          have hidx : a + (i + 1) = (a + 1) + i := by omega
          rw [hidx]
          exact ih (a + 1) i h
      · exact absurd h (by simp)
    | timeout =>
      rw [henv] at h
      dsimp only at h
      split_ifs at h with hf
      · exact absurd h (by simp)
      · cases i with
        | zero => simp [isTransient, henv]
        | succ i =>
          simp only [Nat.succ_lt_succ_iff] at h
          have hidx : a + (i + 1) = (a + 1) + i := by omega
          rw [hidx]
          exact ih (a + 1) i h
    | clientError msg =>
      rw [henv] at h
      dsimp only at h
      split_ifs at h with hf
      · exact absurd h (by simp)
      · cases i with
        | zero => simp [isTransient, henv]
        | succ i =>
          simp only [Nat.succ_lt_succ_iff] at h
          have hidx : a + (i + 1) = (a + 1) + i := by omega
          rw [hidx]
          exact ih (a + 1) i h
    | unexpectedError msg =>
      rw [henv] at h
      exact absurd h (by simp)

/-- Counterexample to C7 as stated: the second executor, `APIClient.request`,
does not surface HTTP 404 as a valid absence — a 404 on the first attempt
(never retried) is returned as an error response `APIResponse(status=500,
data=None, error="HTTP 404")`, whose `success` property is false. -/
theorem api_client_404_is_error_not_absence :
    apiRequest env404 3 none
      = { response := { status := 500, data := none, error := some "HTTP 404", cached := false }
          attemptsUsed := 1
          sleeps := [] }
    ∧ APIResponse.success
        { status := 500, data := none, error := some "HTTP 404", cached := false } = false :=
  ⟨rfl, rfl⟩

/-- C7 (amended): both request executors retry only on transient conditions
(timeout, connection failure, HTTP 5xx), sleep `2 ^ attempt` between
attempts, and are bounded by their attempt count; neither retries an HTTP
4xx.  `DataProvider._make_request` returns a 404 immediately through its
non-error not-found branch (value `None`, one attempt, no sleep), while
`APIClient.request` returns any 4xx — including 404 — as an error response
(see the counterexample). -/
theorem request_executor_retry_discipline :
    (∀ (env : Nat → AttemptOutcome) (rc s : Nat) (b : JVal),
      env 0 = .response s b → 400 ≤ s → s < 500 → rc ≠ 0 →
      make_request env rc
        = { value := none
            exitKind := if s = 404 then .notFoundAbsence else .clientRejected s
            attemptsUsed := 1
            sleeps := [] })
    ∧ (∀ (env : Nat → AttemptOutcome) (rc : Nat),
        (make_request env rc).attemptsUsed ≤ rc)
    ∧ (∀ (env : Nat → AttemptOutcome) (rc i : Nat),
        i < (make_request env rc).sleeps.length →
        (make_request env rc).sleeps.getD i 0 = 2 ^ i)
    ∧ (∀ (env : Nat → AttemptOutcome) (rc i : Nat),
        i + 1 < (make_request env rc).attemptsUsed →
        isTransient (env i) = true)
    ∧ (∀ (env : Nat → APIAttempt) (mr s : Nat) (b : JVal),
        env 0 = .response s b → 400 ≤ s → s < 500 → mr ≠ 0 →
        apiRequest env mr none
          = { response :=
                { status := 500, data := none, error := some ("HTTP " ++ toString s), cached := false }
              attemptsUsed := 1
              sleeps := [] }) := by
  refine ⟨?_, ?_, ?_, ?_, ?_⟩
  · intro env rc s b henv h400 h500 hrc
    cases rc with
    | zero => exact absurd rfl hrc
    | succ rc =>
      unfold make_request makeRequestGo
      rw [henv]
      dsimp only
      have h200 : ¬ s = 200 := by omega
      have h5 : ¬ 500 ≤ s := by omega
      by_cases h4 : s = 404
      · simp [h200, h4]
      · simp [h200, h4, h5]
  · intro env rc
    exact makeRequestGo_attempts_le env 0 rc
  · intro env rc i h
    simpa using makeRequestGo_sleep_at env 0 rc i h
  · intro env rc i h
    simpa using makeRequestGo_retries_transient env 0 rc i h
  · intro env mr s b henv h400 h500 hmr
    cases mr with
    | zero => exact absurd rfl hmr
    | succ mr =>
      unfold apiRequest apiRequestGo
      rw [henv]
      dsimp only
      have hlt : ¬ s < 400 := by omega
      simp [hlt, h500]

/-- Witness for C7: a 404 on the first attempt of `_make_request` ends after
one attempt with no sleep through the not-found branch, the default two
attempts bound any run, and a 403 makes `APIClient.request` return the
HTTP-403 error response without retrying. -/
theorem request_executor_retry_discipline_witness :
    make_request (fun _ => AttemptOutcome.response 404 .null) 2
      = { value := none, exitKind := .notFoundAbsence, attemptsUsed := 1, sleeps := [] }
    ∧ (make_request (fun _ => AttemptOutcome.timeout) 2).attemptsUsed ≤ 2
    ∧ apiRequest (fun _ => APIAttempt.response 403 .null) 3 none
      = { response := { status := 500, data := none, error := some "HTTP 403", cached := false }
          attemptsUsed := 1
          sleeps := [] } :=
  ⟨request_executor_retry_discipline.1 (fun _ => AttemptOutcome.response 404 .null) 2 404 .null
      rfl (by omega) (by omega) (by omega),
   request_executor_retry_discipline.2.1 (fun _ => AttemptOutcome.timeout) 2,
   request_executor_retry_discipline.2.2.2.2 (fun _ => APIAttempt.response 403 .null) 3 403 .null
      rfl (by omega) (by omega) (by omega)⟩
